import Mathlib

/-!
Shallow embedding of the Chatbot repository (src/chatbot_backend.py and
src/streamlit_app.py): the prompt-construction and query-execution pipeline.
The LLM service is modelled as an opaque deterministic function from prompts
to responses (possibly raising a client error); the database is modelled as
an opaque function from SQL text to either an error message or a pair of
column names and rows (cells taken in their string rendering).  Outbound
LLM calls and SQL executions are recorded in an explicit event trace.
-/

namespace Chatbot

/-- Python str.strip(): drop whitespace from both ends. -/
def pyStrip (s : List Char) : List Char :=
  ((s.dropWhile Char.isWhitespace).reverse.dropWhile Char.isWhitespace).reverse

/-- Python str.replace("\x60", ""): remove every backtick character. -/
def removeBackticks : List Char → List Char
  | [] => []
  | c :: rest =>
    if c = '\x60' then removeBackticks rest else c :: removeBackticks rest

/-- Python str.replace("sql", ""): remove all non-overlapping occurrences of
the substring "sql", scanning left to right. -/
def removeSql : List Char → List Char
  | 's' :: 'q' :: 'l' :: rest => removeSql rest
  | c :: rest => c :: removeSql rest
  | [] => []

/-- Cleanup applied to the raw LLM response in both variants
(chatbot_backend.py line 112, streamlit_app.py line 67):
response.text.strip().replace("\x60", "").replace("sql", ""). -/
def cleanup (s : String) : String :=
  (removeSql (removeBackticks (pyStrip s.data))).asString

/-- Python str.strip() on a String. -/
def pyStripStr (s : String) : String := (pyStrip s.data).asString

/-- Python substring test: pat in s. -/
def strContains (pat s : String) : Bool := decide (pat.data <:+: s.data)

/-- ASCII lower-casing of one character (model of Python str.lower()). -/
def asciiLower (c : Char) : Char :=
  if 'A' ≤ c ∧ c ≤ 'Z' then Char.ofNat (c.toNat + 32) else c

/-- Python str.lower() (ASCII fragment, which is all the loop compares). -/
def pyLower (s : String) : String := (s.data.map asciiLower).asString

/-- One entry of the interactive chat history: a dict with a role and a
singleton parts list, as built in chatbot_backend.py lines 202-203. -/
structure Msg where
  role : String
  parts : List String
deriving DecidableEq

/-- Observable side effects of one turn. -/
inductive Event where
  | llmCall (prompt : String)
  | dbExec (sql : String)
deriving DecidableEq

/-- Errors raised by the LLM client: google_exceptions.NotFound versus any
other exception. -/
inductive LlmErr where
  | notFound (msg : String)
  | other (msg : String)
deriving DecidableEq

/-- Python str(e) for an LLM client exception. -/
def LlmErr.msg : LlmErr → String
  | .notFound m => m
  | .other m => m

/-- The LLM service: model.generate_content as an opaque call. -/
structure LlmApi where
  generate : String → Except LlmErr String

/-- The database: cursor.execute + fetchall as an opaque call returning
column names and rows, or a sqlite error message. -/
abbrev DB := String → Except String (List String × List (List String))

/-- The catalog query issued at the start of every turn. -/
def schemaQuery : String := "SELECT sql FROM sqlite_master WHERE type=\x27table\x27;"

/-- Schema text: first cell of each catalog row, newline-joined. -/
def schemaOfRows (rows : List (List String)) : String :=
  String.intercalate "\n" (rows.map (fun r => r.headD ""))

/-- History serialization shared by both backend prompts:
"\n".join(f"\x7bmsg['role']\x7d: \x7bmsg['parts'][0]\x7d" for msg in chat_history). -/
def historyStr (hist : List Msg) : String :=
  String.intercalate "\n" (hist.map (fun m => m.role ++ ": " ++ m.parts.headD ""))

/-- Instruction preamble of the interactive synthesis prompt. -/
def synthPreamble : String :=
  "\nYou are a Text-to-SQL expert. Your task is to convert a user\x27s question into a valid SQLite query.\nYou must only output the SQL query and nothing else. Do not add any explanation or markdown.\nIf the user\x27s question is not a question that can be answered by querying the database (e.g., \"hello\", \"how are you\"),\nsimply respond with the word \"NOT_A_QUERY\".\n"

/-- Text between the preamble and the schema slot. -/
def synthSchemaHeader : String := "\nDatabase Schema:\n---\n"

/-- Domain join/alias conventions block of the interactive synthesis prompt,
up to the history slot. -/
def synthRules : String :=
  "\n---\n\nImportant Querying Rules:\n- **JOINs**: Your default join MUST be a \x60LEFT JOIN\x60 from \x60Demography\x60 to \x60AdverseEvents\x60. Only use \x60INNER JOIN\x60 when the user\x27s question is ONLY about the events themselves (e.g., \"count all headaches\").\n- **ALIASES**: You MUST use \x60dm\x60 for \x60Demography\x60 and \x60ae\x60 for \x60AdverseEvents\x60.\n- **PERCENTAGE QUERIES**: For questions about the \"percentage of subjects with events\", you MUST use the following query structure. This is non-negotiable.\n  - **Example**: \x60SELECT CAST(COUNT(DISTINCT ae.patient_id) AS REAL) * 100 / COUNT(DISTINCT dm.patient_id) FROM Demography dm LEFT JOIN AdverseEvents ae ON dm.patient_id = ae.patient_id\x60\n\nConversation History (for context on follow-up questions):\n---\n"

/-- Text between the history slot and the question slot. -/
def synthQuestionHeader : String := "\n---\n\nUser Question:\n---\n"

/-- Closing text of the interactive synthesis prompt. -/
def synthTail : String := "\n---\n\nSQL Query:\n"

/-- The interactive synthesis prompt (chatbot_backend.py lines 81-109). -/
def synthPrompt (q schema : String) (hist : List Msg) : String :=
  synthPreamble ++ synthSchemaHeader ++ schema ++ synthRules ++
    historyStr hist ++ synthQuestionHeader ++ q ++ synthTail

/-- _get_sql_from_llm (chatbot_backend.py lines 78-113): one LLM call, then
cleanup of the response. -/
def get_sql_from_llm (llm : LlmApi) (q schema : String) (hist : List Msg) :
    Except LlmErr String × List Event :=
  let p := synthPrompt q schema hist
  match llm.generate p with
  | .ok t => (.ok (cleanup t), [.llmCall p])
  | .error e => (.error e, [.llmCall p])

/-- data_string of _format_response_naturally (chatbot_backend.py lines 51-53). -/
def dataString (cols : List String) (rows : List (List String)) : String :=
  String.intercalate ", " cols ++ "\n" ++
    String.join (rows.map (fun r => String.intercalate ", " r ++ "\n"))

/-- The interactive composition prompt (chatbot_backend.py lines 57-74). -/
def composePrompt (q : String) (rows : List (List String)) (cols : List String)
    (hist : List Msg) : String :=
  "\nYou are a helpful chatbot assistant. Your task is to answer the user\x27s question based on the data provided.\nFormulate a friendly, conversational, and natural language response. Do not just repeat the data in a table.\n\nConversation History:\n---\n"
    ++ historyStr hist ++
    "\n---\n\nUser\x27s Original Question: \"" ++ q ++
    "\"\n\nData from Database:\n---\n" ++ dataString cols rows ++
    "\n---\n\nYour friendly response:\n"

/-- _format_response_naturally (chatbot_backend.py lines 42-76): single-cell
fast path, otherwise one LLM call. -/
def format_response_naturally (llm : LlmApi) (q : String)
    (results : List (List String)) (cols : List String) (hist : List Msg) :
    Except LlmErr String × List Event :=
  if results.length = 1 ∧ cols.length = 1 then
    (.ok ("The answer is: " ++ (results.headD []).headD ""), [])
  else
    let p := composePrompt q results cols hist
    match llm.generate p with
    | .ok t => (.ok (pyStripStr t), [.llmCall p])
    | .error e => (.error e, [.llmCall p])

/-- Reply built by the google_exceptions.NotFound handler
(chatbot_backend.py lines 144-149). -/
def notFoundReply (e : String) : String :=
  if strContains "v1beta" e then
    "API Error: The model was not found. This is caused by an old version of the \x27google-generativeai\x27 library. Please ensure your virtual environment is active and you have run \x27pip install --upgrade google-generativeai\x27. Details: " ++ e
  else
    "Sorry, it seems the AI model I\x27m trying to use is not available. Please check the model name. Details: " ++ e

/-- Dispatch of the backend exception handlers over an LLM client error. -/
def llmErrReply : LlmErr → String
  | .notFound e => notFoundReply e
  | .other e => "An unexpected error occurred: " ++ e

/-- The fixed sentinel reply of the interactive variant (line 129). -/
def sentinelReply : String :=
  "I can only answer questions related to the clinical database. Please ask me about patients or adverse events."

/-- The fixed zero-row reply (backend line 138, streamlit line 72). -/
def noResultsReply : String := "I found no results for your query."

/-- query_database (chatbot_backend.py lines 115-153).  The schema fetch at
lines 120-123 sits outside the try block, so a database error there escapes
the function: that case is the Except.error result.  Everything inside the
try block resolves to an Except.ok reply. -/
def query_database (llm : LlmApi) (db : DB) (q : String) (hist : List Msg) :
    Except String String × List Event :=
  match db schemaQuery with
  | .error e => (.error e, [.dbExec schemaQuery])
  | .ok (_, rows) =>
    let schema := schemaOfRows rows
    let res := get_sql_from_llm llm q schema hist
    match res.1 with
    | .error e => (.ok (llmErrReply e), .dbExec schemaQuery :: res.2)
    | .ok sqlQ =>
      if strContains "NOT_A_QUERY" sqlQ then
        (.ok sentinelReply, .dbExec schemaQuery :: res.2)
      else
        match db sqlQ with
        | .error e =>
          (.ok ("I couldn\x27t run the query. The database returned an error: "
              ++ e ++ "\nFaulty SQL was: " ++ sqlQ),
           .dbExec schemaQuery :: res.2 ++ [.dbExec sqlQ])
        | .ok (cols, results) =>
          if results.isEmpty then
            (.ok noResultsReply, .dbExec schemaQuery :: res.2 ++ [.dbExec sqlQ])
          else
            let r := format_response_naturally llm q results cols hist
            match r.1 with
            | .ok t =>
              (.ok t, .dbExec schemaQuery :: res.2 ++ [.dbExec sqlQ] ++ r.2)
            | .error e =>
              (.ok (llmErrReply e),
               .dbExec schemaQuery :: res.2 ++ [.dbExec sqlQ] ++ r.2)

/-- MAX_HISTORY_TURNS (chatbot_backend.py line 193). -/
def MAX_HISTORY_TURNS : Nat := 5

/-- Outcome of one iteration of the interactive loop: the loop breaks, or
continues with an updated history and a printed reply, or an exception
escapes query_database and terminates the process. -/
inductive StepResult where
  | quit
  | cont (hist : List Msg) (reply : String)
  | crash (msg : String)
deriving DecidableEq

/-- History trimming (chatbot_backend.py lines 205-206):
chat_history[-MAX_HISTORY_TURNS * 2:] once the length exceeds the window. -/
def trimHistory (h : List Msg) : List Msg :=
  if h.length > MAX_HISTORY_TURNS * 2 then
    h.drop (h.length - MAX_HISTORY_TURNS * 2)
  else h

/-- One iteration of the interactive loop (chatbot_backend.py lines 195-206). -/
def interactiveStep (llm : LlmApi) (db : DB) (hist : List Msg)
    (input : String) : StepResult :=
  if pyLower input = "quit" ∨ pyLower input = "exit" then .quit
  else
    match query_database llm db input hist with
    | (.error e, _) => .crash e
    | (.ok reply, _) =>
      .cont (trimHistory (hist ++ [⟨"user", [input]⟩, ⟨"model", [reply]⟩])) reply

/-- Opening text of the web synthesis prompt (streamlit_app.py lines 49-56,
indentation of the source literal preserved). -/
def webPre : String :=
  "\n    You are a Text-to-SQL expert. Your task is to convert a user\x27s question into a valid SQLite query.\n    You must only output the SQL query and nothing else. Do not add any explanation or markdown.\n    If the user\x27s question is not a question that can be answered by querying the database (e.g., \"hello\", \"how are you\"),\n    simply respond with the word \"NOT_A_QUERY\".\n\n    Database Schema:\n    ---\n    "

/-- Alias conventions block of the web synthesis prompt (lines 58-63). -/
def webRules : String :=
  "\n    ---\n\n    Important Querying Rules:\n    - You MUST use the table aliases \x60dm\x60 for the demography table, \x60ae\x60 for the adverse events table, and \x60vs\x60 for the vitals table.\n\n    User Question: \""

/-- Closing text of the web synthesis prompt. -/
def webTail : String := "\"\n    SQL Query:\n    "

/-- The web synthesis prompt (streamlit_app.py lines 49-65): no
conversation-history slot exists in this literal. -/
def webSynthPrompt (q schema : String) : String :=
  webPre ++ schema ++ webRules ++ q ++ webTail

/-- get_sql_from_llm of the web variant (streamlit_app.py lines 47-67). -/
def get_sql_from_llm_web (llm : LlmApi) (q schema : String) :
    Except LlmErr String × List Event :=
  let p := webSynthPrompt q schema
  match llm.generate p with
  | .ok t => (.ok (cleanup t), [.llmCall p])
  | .error e => (.error e, [.llmCall p])

/-- The conversational prompt used on the sentinel path of the web variant
(streamlit_app.py line 116). -/
def webConvPrompt (q : String) : String :=
  "You are a helpful chatbot. The user said: \x27" ++ q ++ "\x27. Respond conversationally."

/-- data_string of the web composer (streamlit_app.py line 74). -/
def dataStringWeb (cols : List String) (rows : List (List String)) : String :=
  String.intercalate ", " cols ++ "\n" ++
    String.intercalate "\n" (rows.map (fun r => String.intercalate ", " r))

/-- The web composition prompt (streamlit_app.py lines 75-85). -/
def webComposePrompt (q : String) (rows : List (List String))
    (cols : List String) : String :=
  "\n    You are a helpful chatbot assistant. Your task is to answer the user\x27s question based on the data provided.\n    Formulate a friendly, conversational, and natural language response. Do not just repeat the data in a table.\n\n    User\x27s Original Question: \""
    ++ q ++ "\"\n    Data from Database:\n    ---\n    "
    ++ dataStringWeb cols rows ++ "\n    ---\n    Your friendly response:\n    "

/-- format_response_naturally of the web variant (streamlit_app.py lines
69-87): fixed zero-row reply, otherwise one LLM call — there is no
single-cell fast path in this variant. -/
def format_response_naturally_web (llm : LlmApi) (q : String)
    (results : List (List String)) (cols : List String) :
    Except LlmErr String × List Event :=
  if results.isEmpty then (.ok noResultsReply, [])
  else
    let p := webComposePrompt q results cols
    match llm.generate p with
    | .ok t => (.ok (pyStripStr t), [.llmCall p])
    | .error e => (.error e, [.llmCall p])

/-- One turn of the web chat handler (streamlit_app.py lines 108-126).  The
whole body, schema fetch included, sits inside one try block whose handler
renders "An error occurred: " followed by str(e). -/
def webTurn (llm : LlmApi) (db : DB) (q : String) : String × List Event :=
  match db schemaQuery with
  | .error e => ("An error occurred: " ++ e, [.dbExec schemaQuery])
  | .ok (_, rows) =>
    let schema := schemaOfRows rows
    let res := get_sql_from_llm_web llm q schema
    match res.1 with
    | .error e => ("An error occurred: " ++ e.msg, .dbExec schemaQuery :: res.2)
    | .ok sqlQ =>
      if strContains "NOT_A_QUERY" sqlQ then
        let cp := webConvPrompt q
        match llm.generate cp with
        | .ok r => (r, .dbExec schemaQuery :: res.2 ++ [.llmCall cp])
        | .error e =>
          ("An error occurred: " ++ e.msg, .dbExec schemaQuery :: res.2 ++ [.llmCall cp])
      else
        match db sqlQ with
        | .error e =>
          ("An error occurred: " ++ e, .dbExec schemaQuery :: res.2 ++ [.dbExec sqlQ])
        | .ok (cols, results) =>
          let r := format_response_naturally_web llm q results cols
          match r.1 with
          | .ok t => (t, .dbExec schemaQuery :: res.2 ++ [.dbExec sqlQ] ++ r.2)
          | .error e =>
            ("An error occurred: " ++ e.msg,
             .dbExec schemaQuery :: res.2 ++ [.dbExec sqlQ] ++ r.2)

/-- Alternation predicate on the interactive history: entries pair up as one
user entry followed by one model entry, in chronological order. -/
def altUM : List Msg → Bool
  | [] => true
  | [_] => false
  | u :: m :: rest => u.role = "user" && m.role = "model" && altUM rest

/-- Ordered containment: each listed block occurs in the text, one after the
other, left to right. -/
def ContainsInOrder : List (List Char) → List Char → Prop
  | [], _ => True
  | p :: ps, s => ∃ a b, s = a ++ (p ++ b) ∧ ContainsInOrder ps b

/-- Example LLM that always answers with a fixed harmless query. -/
def okLlm : LlmApi := ⟨fun _ => .ok "SELECT 1"⟩

/-- Example LLM that always answers with the sentinel. -/
def sentLlm : LlmApi := ⟨fun _ => .ok "NOT_A_QUERY"⟩

/-- Example LLM that always answers with a query over a missing table. -/
def missLlm : LlmApi := ⟨fun _ => .ok "SELECT * FROM Missing"⟩

/-- Example database on which every statement succeeds with no rows. -/
def emptyDb : DB := fun _ => .ok ([], [])

/-- Example database on which every statement, the catalog query included,
raises a sqlite error. -/
def crashDb : DB := fun _ => .error "disk I/O error"

/-- Example database whose catalog query succeeds and on which every other
statement raises a sqlite error. -/
def execErrDb : DB := fun s =>
  if s = schemaQuery then .ok ([], [["CREATE TABLE Demography(patient_id)"]])
  else .error "no such table: Missing"

theorem asString_data (s : String) : s.data.asString = s := rfl

theorem data_asString (l : List Char) : l.asString.data = l := rfl

theorem strContains_of_decomp (sub s : String) (l r : List Char)
    (h : s.data = l ++ sub.data ++ r) : strContains sub s = true := by
  simp only [strContains, decide_eq_true_eq]
  exact ⟨l, r, h.symm⟩

theorem backtick_not_mem_removeBackticks :
    ∀ s : List Char, '\x60' ∉ removeBackticks s := by
  intro s
  induction s with
  | nil => simp [removeBackticks]
  | cons c rest ih =>
    by_cases h : c = '\x60'
    · simpa [removeBackticks, h] using ih
    · simp only [removeBackticks, if_neg h, List.mem_cons]
      rintro (hc | hm)
      · exact h hc.symm
      · exact ih hm

theorem removeBackticks_eq_self :
    ∀ s : List Char, '\x60' ∉ s → removeBackticks s = s := by
  intro s
  induction s with
  | nil => intro _; rfl
  | cons c rest ih =>
    intro h
    simp only [List.mem_cons] at h
    push_neg at h
    have hc : ¬ (c = '\x60') := fun e => h.1 e.symm
    simp [removeBackticks, hc, ih h.2]

theorem mem_removeSql (x : Char) : ∀ s, x ∈ removeSql s → x ∈ s := by
  intro s
  induction s using removeSql.induct with
  | case1 rest ih =>
    rw [removeSql.eq_1]
    intro h
    simp [ih h]
  | case2 c rest hne ih =>
    rw [removeSql.eq_2 c rest hne]
    intro h
    rcases List.mem_cons.mp h with h | h
    · simp [h]
    · simp [ih h]
  | case3 =>
    intro h
    simp [removeSql.eq_3] at h

theorem cleanup_data_no_backtick (s : String) : '\x60' ∉ (cleanup s).data := by
  intro h
  have h2 : '\x60' ∈ removeBackticks (pyStrip s.data) :=
    mem_removeSql _ _ (by simpa [cleanup, data_asString] using h)
  exact backtick_not_mem_removeBackticks _ h2

/-- C6 counterexample: cleaning the string consisting of a backtick, a
space, the letter x, a space and a backtick yields " x ", and cleaning that
output again strips it further to "x" — so the cleanup is not idempotent as
claimed. -/
theorem cleanup_not_idempotent :
    cleanup (cleanup "\x60 x \x60") ≠ cleanup "\x60 x \x60" := by decide

/-- C6 (amended): the cleanup is idempotent on every string whose cleaned
form is already whitespace-stripped and free of the substring "sql"; a
second application can differ only by stripping whitespace exposed by
backtick removal or by removing "sql" occurrences re-formed by the earlier
removals. -/
theorem cleanup_idem_of_clean (s : String)
    (h1 : pyStrip (cleanup s).data = (cleanup s).data)
    (h2 : removeSql (cleanup s).data = (cleanup s).data) :
    cleanup (cleanup s) = cleanup s := by
  have hb : removeBackticks (cleanup s).data = (cleanup s).data :=
    removeBackticks_eq_self _ (cleanup_data_no_backtick s)
  calc cleanup (cleanup s)
      = (removeSql (removeBackticks (pyStrip (cleanup s).data))).asString := rfl
    _ = (removeSql (removeBackticks (cleanup s).data)).asString := by rw [h1]
    _ = (removeSql (cleanup s).data).asString := by rw [hb]
    _ = ((cleanup s).data).asString := by rw [h2]
    _ = cleanup s := asString_data _

/-- C6 witness: "SELECT 1" cleans to itself and satisfies both side
conditions of the amended statement. -/
theorem cleanup_idem_witness :
    pyStrip (cleanup "SELECT 1").data = (cleanup "SELECT 1").data ∧
    removeSql (cleanup "SELECT 1").data = (cleanup "SELECT 1").data ∧
    cleanup (cleanup "SELECT 1") = cleanup "SELECT 1" :=
  ⟨by decide, by decide, cleanup_idem_of_clean "SELECT 1" (by decide) (by decide)⟩

/-- C9 counterexample: a blank input is not a quit sentinel — the loop does
not terminate on it; it is processed as an ordinary question and produces a
reply, contrary to the claim that blank input terminates the session. -/
theorem blank_input_not_quit :
    interactiveStep okLlm emptyDb [] "" ≠ .quit ∧
    interactiveStep okLlm emptyDb [] "" =
      .cont [⟨"user", [""]⟩, Msg.mk "model" [noResultsReply]] noResultsReply := by
  exact ⟨by decide, rfl⟩

/-- C9 (amended): in the interactive variant the session terminates exactly
when the lower-cased input is "quit" or "exit"; a blank input is processed
as a regular question. -/
theorem interactive_quit_iff (llm : LlmApi) (db : DB) (hist : List Msg)
    (input : String) :
    interactiveStep llm db hist input = .quit ↔
      (pyLower input = "quit" ∨ pyLower input = "exit") := by
  constructor
  · intro h
    by_contra hc
    rw [interactiveStep, if_neg hc] at h
    rcases hq : query_database llm db input hist with ⟨r, evs⟩
    rw [hq] at h
    rcases r with e | reply <;> exact StepResult.noConfusion h
  · intro h
    rw [interactiveStep, if_pos h]

/-- C4 counterexample: a database error raised by the catalog query at the
start of the turn is not caught — query_database returns it as an escaped
exception and the interactive loop crashes instead of producing a reply. -/
theorem schema_fetch_error_escapes :
    (query_database okLlm crashDb "How many patients" []).1 =
      .error "disk I/O error" ∧
    interactiveStep okLlm crashDb [] "How many patients" =
      .crash "disk I/O error" := by
  exact ⟨rfl, rfl⟩

/-- C4 (amended): once the schema fetch at the start of the turn has
succeeded, every error arising in the rest of the turn (synthesis,
execution, composition) is resolved into a reply string — no exception
escapes query_database; a failure of the schema fetch itself, however,
escapes the turn. -/
theorem turn_errors_resolved (llm : LlmApi) (db : DB) (q : String)
    (hist : List Msg) (cols : List String) (rows : List (List String))
    (hdb : db schemaQuery = .ok (cols, rows)) :
    ∃ r, (query_database llm db q hist).1 = .ok r := by
  rcases hg : get_sql_from_llm llm q (schemaOfRows rows) hist with ⟨g, ev1⟩
  rcases g with e | sqlQ
  · exact ⟨llmErrReply e, by simp [query_database, hdb, hg]⟩
  · by_cases hs : strContains "NOT_A_QUERY" sqlQ = true
    · exact ⟨sentinelReply, by simp [query_database, hdb, hg, hs]⟩
    · rcases hx : db sqlQ with e | ⟨c2, results⟩
      · exact ⟨"I couldn\x27t run the query. The database returned an error: "
            ++ e ++ "\nFaulty SQL was: " ++ sqlQ,
          by simp [query_database, hdb, hg, hs, hx]⟩
      · by_cases he : results.isEmpty = true
        · exact ⟨noResultsReply, by simp [query_database, hdb, hg, hs, hx, he]⟩
        · rcases hr : format_response_naturally llm q results c2 hist with ⟨r1, ev2⟩
          rcases r1 with e | t
          · exact ⟨llmErrReply e,
              by simp [query_database, hdb, hg, hs, hx, he, hr]⟩
          · exact ⟨t, by simp [query_database, hdb, hg, hs, hx, he, hr]⟩

/-- C4 witness: on a database whose catalog query succeeds, a concrete turn
resolves to a reply. -/
theorem turn_errors_resolved_witness :
    ∃ r, (query_database okLlm emptyDb "How many patients" []).1 = .ok r :=
  turn_errors_resolved okLlm emptyDb "How many patients" [] [] [] rfl

/-- C2 counterexample: the web composer issues an LLM call even when the
result has exactly one row and one column, so the claimed universal fast
path fails in the web variant. -/
theorem web_no_fast_path :
    (format_response_naturally_web okLlm "How many subjects" [["7"]] ["n"]).2
      ≠ [] := by decide

/-- C2 (amended): in the interactive variant, a result with exactly one row
and one column bypasses the LLM — the composer performs zero LLM calls and
returns the templated sentence embedding the value verbatim; the web
variant's composer instead issues one LLM call on such a result. -/
theorem fast_path_single_cell (llm : LlmApi) (q v c : String)
    (hist : List Msg) :
    format_response_naturally llm q [[v]] [c] hist =
      (.ok ("The answer is: " ++ v), []) ∧
    (format_response_naturally_web llm q [[v]] [c]).2 =
      [.llmCall (webComposePrompt q [[v]] [c])] := by
  constructor
  · simp [format_response_naturally]
  · rw [format_response_naturally_web]
    simp only [List.isEmpty_cons, if_false, Bool.false_eq_true]
    rcases hllm : llm.generate (webComposePrompt q [[v]] [c]) with e | t <;>
      simp [hllm]

theorem trimHistory_eq_drop (l : List Msg) :
    trimHistory l = l.drop (l.length - MAX_HISTORY_TURNS * 2) := by
  by_cases h : l.length > MAX_HISTORY_TURNS * 2
  · rw [trimHistory, if_pos h]
  · rw [trimHistory, if_neg h]
    have h0 : l.length - MAX_HISTORY_TURNS * 2 = 0 := by omega
    rw [h0, List.drop_zero]

theorem trimHistory_length_le (l : List Msg) :
    (trimHistory l).length ≤ MAX_HISTORY_TURNS * 2 := by
  rw [trimHistory_eq_drop, List.length_drop]
  omega

theorem interactiveStep_cont (llm : LlmApi) (db : DB) (hist : List Msg)
    (input : String) (h2 : List Msg) (reply : String)
    (h : interactiveStep llm db hist input = .cont h2 reply) :
    h2 = trimHistory (hist ++ [Msg.mk "user" [input], Msg.mk "model" [reply]]) := by
  by_cases hc : pyLower input = "quit" ∨ pyLower input = "exit"
  · rw [interactiveStep, if_pos hc] at h
    exact StepResult.noConfusion h
  · rw [interactiveStep, if_neg hc] at h
    rcases hq : query_database llm db input hist with ⟨r, evs⟩
    rw [hq] at h
    rcases r with e | rep
    · exact StepResult.noConfusion h
    · rw [StepResult.cont.injEq] at h
      obtain ⟨hh, hr⟩ := h
      rw [← hh, hr]

/-- C5: after any completed interactive turn the history holds at most
MAX_HISTORY_TURNS * 2 entries, and it is exactly the most recent suffix of
the old history extended with the turn's user and model entries — i.e. the
oldest entries are dropped first. -/
theorem history_window (llm : LlmApi) (db : DB) (hist : List Msg)
    (input : String) (h2 : List Msg) (reply : String)
    (h : interactiveStep llm db hist input = .cont h2 reply) :
    h2.length ≤ MAX_HISTORY_TURNS * 2 ∧
    h2 = (hist ++ [Msg.mk "user" [input], Msg.mk "model" [reply]]).drop
        ((hist.length + 2) - MAX_HISTORY_TURNS * 2) := by
  have hh := interactiveStep_cont llm db hist input h2 reply h
  subst hh
  refine ⟨trimHistory_length_le _, ?_⟩
  rw [trimHistory_eq_drop]
  congr 1
  simp

/-- C5 witness: one concrete completed turn from an empty history. -/
theorem history_window_witness :
    ([Msg.mk "user" ["hi"], Msg.mk "model" [noResultsReply]] : List Msg).length
        ≤ MAX_HISTORY_TURNS * 2 ∧
    ([Msg.mk "user" ["hi"], Msg.mk "model" [noResultsReply]] : List Msg) =
      (([] : List Msg) ++ [Msg.mk "user" ["hi"], Msg.mk "model" [noResultsReply]]).drop
        (((List.length ([] : List Msg)) + 2) - MAX_HISTORY_TURNS * 2) :=
  history_window okLlm emptyDb [] "hi" _ _ rfl

theorem altUM_append_pair :
    ∀ (l : List Msg) (x y : List String), altUM l = true →
      altUM (l ++ [Msg.mk "user" x, Msg.mk "model" y]) = true := by
  intro l
  induction l using altUM.induct with
  | case1 =>
    intro x y _
    simp [altUM]
  | case2 a =>
    intro x y h
    simp [altUM] at h
  | case3 u m rest ih =>
    intro x y h
    simp only [altUM, Bool.and_eq_true, decide_eq_true_eq] at h
    obtain ⟨⟨h1, h2⟩, h3⟩ := h
    simp only [List.cons_append, altUM, Bool.and_eq_true, decide_eq_true_eq]
    exact ⟨⟨h1, h2⟩, ih x y h3⟩

theorem altUM_even : ∀ l : List Msg, altUM l = true → l.length % 2 = 0 := by
  intro l
  induction l using altUM.induct with
  | case1 => intro _; rfl
  | case2 a => intro h; simp [altUM] at h
  | case3 u m rest ih =>
    intro h
    simp only [altUM, Bool.and_eq_true] at h
    have := ih h.2
    simp only [List.length_cons]
    omega

theorem altUM_drop_two (l : List Msg) (h : altUM l = true) :
    altUM (l.drop 2) = true := by
  match l with
  | [] => exact h
  | [a] => simp [altUM] at h
  | u :: m :: rest =>
    simp only [altUM, Bool.and_eq_true] at h
    simpa using h.2

theorem altUM_drop_even :
    ∀ (k : Nat) (l : List Msg), altUM l = true → altUM (l.drop (2 * k)) = true := by
  intro k
  induction k with
  | zero => intro l h; simpa using h
  | succ n ih =>
    intro l h
    have h2 := ih (l.drop 2) (altUM_drop_two l h)
    rw [List.drop_drop] at h2
    have harith : 2 + 2 * n = 2 * (n + 1) := by omega
    rwa [harith] at h2

/-- C10: a completed interactive turn extends the history with exactly one
user entry followed by one model entry before the window is applied, and the
alternation invariant and even length are preserved. -/
theorem turn_appends_user_model_pair (llm : LlmApi) (db : DB)
    (hist : List Msg) (input : String) (h2 : List Msg) (reply : String)
    (hwf : altUM hist = true)
    (h : interactiveStep llm db hist input = .cont h2 reply) :
    h2 = (hist ++ [Msg.mk "user" [input], Msg.mk "model" [reply]]).drop
        ((hist.length + 2) - MAX_HISTORY_TURNS * 2) ∧
    altUM h2 = true ∧ h2.length % 2 = 0 := by
  have hh := interactiveStep_cont llm db hist input h2 reply h
  have hfull : altUM (hist ++ [Msg.mk "user" [input], Msg.mk "model" [reply]]) = true :=
    altUM_append_pair hist [input] [reply] hwf
  have hev := altUM_even hist hwf
  obtain ⟨j, hj⟩ : ∃ j, (hist.length + 2) - MAX_HISTORY_TURNS * 2 = 2 * j :=
    ⟨((hist.length + 2) - MAX_HISTORY_TURNS * 2) / 2, by omega⟩
  have hdrop : h2 = (hist ++ [Msg.mk "user" [input], Msg.mk "model" [reply]]).drop
      ((hist.length + 2) - MAX_HISTORY_TURNS * 2) := by
    rw [hh, trimHistory_eq_drop]
    congr 1
    simp
  refine ⟨hdrop, ?_, ?_⟩
  · rw [hdrop, hj]
    exact altUM_drop_even j _ hfull
  · have : altUM h2 = true := by
      rw [hdrop, hj]
      exact altUM_drop_even j _ hfull
    exact altUM_even h2 this

/-- C10 witness: one concrete completed turn from the empty (trivially
alternating) history. -/
theorem turn_appends_user_model_pair_witness :
    (([Msg.mk "user" ["hello"], Msg.mk "model" [noResultsReply]] : List Msg) =
      (([] : List Msg) ++ [Msg.mk "user" ["hello"], Msg.mk "model" [noResultsReply]]).drop
        (((List.length ([] : List Msg)) + 2) - MAX_HISTORY_TURNS * 2)) ∧
    altUM [Msg.mk "user" ["hello"], Msg.mk "model" [noResultsReply]] = true ∧
    ([Msg.mk "user" ["hello"], Msg.mk "model" [noResultsReply]] : List Msg).length % 2 = 0 :=
  turn_appends_user_model_pair okLlm emptyDb [] "hello" _ _ rfl rfl

/-- C1: when the cleaned synthesis result contains the sentinel, neither
variant executes the candidate against the database — the event trace holds
no execution beyond the catalog query — and the reply is the fixed message
in the interactive variant and the result of the plain conversational LLM
call in the web variant. -/
theorem sentinel_no_execution (llm : LlmApi) (db : DB) (q : String)
    (hist : List Msg) (cols : List String) (rows : List (List String))
    (t tw cr : String)
    (hdb : db schemaQuery = .ok (cols, rows))
    (hllm : llm.generate (synthPrompt q (schemaOfRows rows) hist) = .ok t)
    (hsent : strContains "NOT_A_QUERY" (cleanup t) = true)
    (hllmw : llm.generate (webSynthPrompt q (schemaOfRows rows)) = .ok tw)
    (hsentw : strContains "NOT_A_QUERY" (cleanup tw) = true)
    (hconv : llm.generate (webConvPrompt q) = .ok cr) :
    query_database llm db q hist =
      (.ok sentinelReply,
       [.dbExec schemaQuery, .llmCall (synthPrompt q (schemaOfRows rows) hist)]) ∧
    webTurn llm db q =
      (cr, [.dbExec schemaQuery, .llmCall (webSynthPrompt q (schemaOfRows rows)),
            .llmCall (webConvPrompt q)]) := by
  have hg : get_sql_from_llm llm q (schemaOfRows rows) hist =
      (.ok (cleanup t), [.llmCall (synthPrompt q (schemaOfRows rows) hist)]) := by
    simp [get_sql_from_llm, hllm]
  have hgw : get_sql_from_llm_web llm q (schemaOfRows rows) =
      (.ok (cleanup tw), [.llmCall (webSynthPrompt q (schemaOfRows rows))]) := by
    simp [get_sql_from_llm_web, hllmw]
  constructor
  · simp [query_database, hdb, hg, hsent]
  · simp [webTurn, hdb, hgw, hsentw, hconv]

/-- C1 witness: an LLM answering the sentinel on every prompt, over a
database whose catalog query succeeds. -/
theorem sentinel_no_execution_witness :
    query_database sentLlm emptyDb "hello" [] =
      (.ok sentinelReply,
       [.dbExec schemaQuery, .llmCall (synthPrompt "hello" (schemaOfRows []) [])]) ∧
    webTurn sentLlm emptyDb "hello" =
      ("NOT_A_QUERY",
       [.dbExec schemaQuery, .llmCall (webSynthPrompt "hello" (schemaOfRows [])),
        .llmCall (webConvPrompt "hello")]) :=
  sentinel_no_execution sentLlm emptyDb "hello" [] [] []
    "NOT_A_QUERY" "NOT_A_QUERY" "NOT_A_QUERY"
    rfl rfl (by decide) rfl (by decide) rfl

/-- C3 counterexample: in the web variant an execution failure produces the
reply "An error occurred: no such table: Missing", which does not contain
the faulty SQL text, contrary to the claim that every execution-failure
reply carries both the error text and the SQL text. -/
theorem web_exec_failure_reply_lacks_sql :
    (webTurn missLlm execErrDb "How many").1 =
      "An error occurred: no such table: Missing" ∧
    strContains "SELECT * FROM Missing" (webTurn missLlm execErrDb "How many").1
      = false := by
  exact ⟨rfl, by decide⟩

/-- C3 (amended): on an execution failure the interactive variant's reply
embeds both the original database error text and the SQL text that caused
it; the web variant's reply is "An error occurred: " followed by the error
text alone, without the SQL text. -/
theorem exec_failure_reply (llm : LlmApi) (db : DB) (q e : String)
    (hist : List Msg) (cols : List String) (rows : List (List String))
    (t tw : String)
    (hdb : db schemaQuery = .ok (cols, rows))
    (hllm : llm.generate (synthPrompt q (schemaOfRows rows) hist) = .ok t)
    (hns : strContains "NOT_A_QUERY" (cleanup t) = false)
    (hexec : db (cleanup t) = .error e)
    (hllmw : llm.generate (webSynthPrompt q (schemaOfRows rows)) = .ok tw)
    (hnsw : strContains "NOT_A_QUERY" (cleanup tw) = false)
    (hexecw : db (cleanup tw) = .error e) :
    query_database llm db q hist =
      (.ok ("I couldn\x27t run the query. The database returned an error: "
          ++ e ++ "\nFaulty SQL was: " ++ cleanup t),
       [.dbExec schemaQuery, .llmCall (synthPrompt q (schemaOfRows rows) hist),
        .dbExec (cleanup t)]) ∧
    strContains e
      ("I couldn\x27t run the query. The database returned an error: "
        ++ e ++ "\nFaulty SQL was: " ++ cleanup t) = true ∧
    strContains (cleanup t)
      ("I couldn\x27t run the query. The database returned an error: "
        ++ e ++ "\nFaulty SQL was: " ++ cleanup t) = true ∧
    webTurn llm db q =
      ("An error occurred: " ++ e,
       [.dbExec schemaQuery, .llmCall (webSynthPrompt q (schemaOfRows rows)),
        .dbExec (cleanup tw)]) ∧
    strContains e ("An error occurred: " ++ e) = true := by
  have hg : get_sql_from_llm llm q (schemaOfRows rows) hist =
      (.ok (cleanup t), [.llmCall (synthPrompt q (schemaOfRows rows) hist)]) := by
    simp [get_sql_from_llm, hllm]
  have hgw : get_sql_from_llm_web llm q (schemaOfRows rows) =
      (.ok (cleanup tw), [.llmCall (webSynthPrompt q (schemaOfRows rows))]) := by
    simp [get_sql_from_llm_web, hllmw]
  refine ⟨?_, ?_, ?_, ?_, ?_⟩
  · simp [query_database, hdb, hg, hns, hexec]
  · exact strContains_of_decomp e _
      ("I couldn\x27t run the query. The database returned an error: ").data
      (("\nFaulty SQL was: ").data ++ (cleanup t).data)
      (by simp [String.data_append, List.append_assoc])
  · exact strContains_of_decomp (cleanup t) _
      (("I couldn\x27t run the query. The database returned an error: "
          ++ e ++ "\nFaulty SQL was: ").data)
      []
      (by simp [String.data_append, List.append_assoc])
  · simp [webTurn, hdb, hgw, hnsw, hexecw]
  · exact strContains_of_decomp e _ ("An error occurred: ").data []
      (by simp [String.data_append, List.append_assoc])

/-- C3 witness: an LLM producing a query over a missing table, on a database
that raises "no such table" for everything but the catalog query. -/
theorem exec_failure_reply_witness :
    query_database missLlm execErrDb "How many" [] =
      (.ok ("I couldn\x27t run the query. The database returned an error: "
          ++ "no such table: Missing" ++ "\nFaulty SQL was: "
          ++ cleanup "SELECT * FROM Missing"),
       [.dbExec schemaQuery,
        .llmCall (synthPrompt "How many"
          (schemaOfRows [["CREATE TABLE Demography(patient_id)"]]) []),
        .dbExec (cleanup "SELECT * FROM Missing")]) ∧
    strContains "no such table: Missing"
      ("I couldn\x27t run the query. The database returned an error: "
        ++ "no such table: Missing" ++ "\nFaulty SQL was: "
        ++ cleanup "SELECT * FROM Missing") = true ∧
    strContains (cleanup "SELECT * FROM Missing")
      ("I couldn\x27t run the query. The database returned an error: "
        ++ "no such table: Missing" ++ "\nFaulty SQL was: "
        ++ cleanup "SELECT * FROM Missing") = true ∧
    webTurn missLlm execErrDb "How many" =
      ("An error occurred: " ++ "no such table: Missing",
       [.dbExec schemaQuery,
        .llmCall (webSynthPrompt "How many"
          (schemaOfRows [["CREATE TABLE Demography(patient_id)"]])),
        .dbExec (cleanup "SELECT * FROM Missing")]) ∧
    strContains "no such table: Missing"
      ("An error occurred: " ++ "no such table: Missing") = true :=
  exec_failure_reply missLlm execErrDb "How many" "no such table: Missing" []
    [] [["CREATE TABLE Demography(patient_id)"]]
    "SELECT * FROM Missing" "SELECT * FROM Missing"
    rfl rfl (by decide) rfl rfl (by decide) rfl

/-- C7: a zero-row result short-circuits in both variants — the reply is the
fixed no-results message and the trace shows exactly one LLM call (the
synthesis), so the composer performs no LLM call. -/
theorem empty_result_fixed_reply (llm : LlmApi) (db : DB) (q : String)
    (hist : List Msg) (cols cols2 cols3 : List String)
    (rows : List (List String)) (t tw : String)
    (hdb : db schemaQuery = .ok (cols, rows))
    (hllm : llm.generate (synthPrompt q (schemaOfRows rows) hist) = .ok t)
    (hns : strContains "NOT_A_QUERY" (cleanup t) = false)
    (hexec : db (cleanup t) = .ok (cols2, []))
    (hllmw : llm.generate (webSynthPrompt q (schemaOfRows rows)) = .ok tw)
    (hnsw : strContains "NOT_A_QUERY" (cleanup tw) = false)
    (hexecw : db (cleanup tw) = .ok (cols3, [])) :
    query_database llm db q hist =
      (.ok noResultsReply,
       [.dbExec schemaQuery, .llmCall (synthPrompt q (schemaOfRows rows) hist),
        .dbExec (cleanup t)]) ∧
    webTurn llm db q =
      (noResultsReply,
       [.dbExec schemaQuery, .llmCall (webSynthPrompt q (schemaOfRows rows)),
        .dbExec (cleanup tw)]) := by
  have hg : get_sql_from_llm llm q (schemaOfRows rows) hist =
      (.ok (cleanup t), [.llmCall (synthPrompt q (schemaOfRows rows) hist)]) := by
    simp [get_sql_from_llm, hllm]
  have hgw : get_sql_from_llm_web llm q (schemaOfRows rows) =
      (.ok (cleanup tw), [.llmCall (webSynthPrompt q (schemaOfRows rows))]) := by
    simp [get_sql_from_llm_web, hllmw]
  constructor
  · simp [query_database, hdb, hg, hns, hexec]
  · simp [webTurn, hdb, hgw, hnsw, hexecw, format_response_naturally_web]

/-- C7 witness: an LLM answering a fixed query on a database that returns no
rows for every statement. -/
theorem empty_result_fixed_reply_witness :
    query_database okLlm emptyDb "How many" [] =
      (.ok noResultsReply,
       [.dbExec schemaQuery, .llmCall (synthPrompt "How many" (schemaOfRows []) []),
        .dbExec (cleanup "SELECT 1")]) ∧
    webTurn okLlm emptyDb "How many" =
      (noResultsReply,
       [.dbExec schemaQuery, .llmCall (webSynthPrompt "How many" (schemaOfRows [])),
        .dbExec (cleanup "SELECT 1")]) :=
  empty_result_fixed_reply okLlm emptyDb "How many" [] [] [] [] []
    "SELECT 1" "SELECT 1" rfl rfl (by decide) rfl rfl (by decide) rfl

theorem containsInOrder_mem :
    ∀ (L : List (List Char)) (s p : List Char),
      ContainsInOrder L s → p ∈ L → p <:+: s := by
  intro L
  induction L with
  | nil =>
    intro s p _ hp
    simp at hp
  | cons hd tl ih =>
    intro s p hc hp
    obtain ⟨a, b, heq, hrest⟩ := hc
    rcases List.mem_cons.mp hp with h | h
    · subst h
      exact ⟨a, b, by rw [heq, List.append_assoc]⟩
    · have hb := ih b p hrest h
      have hbs : b <:+: s := ⟨a ++ hd, [], by simp [heq]⟩
      exact hb.trans hbs

set_option maxRecDepth 20000 in
/-- C8 counterexample: in the web variant the synthesis prompt for a session
whose context holds the turn rendered "user: hi" does not contain that
serialized context at all, so the claimed five-part prompt layout fails
there. -/
theorem web_synth_prompt_omits_history :
    ¬ ContainsInOrder [webPre.data, ("" : String).data, webRules.data,
        (historyStr [Msg.mk "user" ["hi"]]).data,
        ("How many subjects" : String).data]
      (webSynthPrompt "How many subjects" "").data := by
  intro h
  have h2 := containsInOrder_mem _ _
    ((historyStr [Msg.mk "user" ["hi"]]).data) h (by simp)
  have h3 : ¬ ((historyStr [Msg.mk "user" ["hi"]]).data <:+:
      (webSynthPrompt "How many subjects" "").data) := by decide
  exact h3 h2

/-- C8 (amended): the interactive synthesis prompt contains, in fixed order,
the instruction preamble, the schema text, the domain join/alias
conventions, the serialized conversation context and the user question, and
the synthesizer invokes the LLM exactly once; the web variant's synthesis
prompt contains the preamble, the schema, its alias conventions and the
question in that order, also with exactly one LLM call, but it carries no
conversation context. -/
theorem synth_prompt_structure (llm : LlmApi) (q schema : String)
    (hist : List Msg) :
    ContainsInOrder [synthPreamble.data, schema.data, synthRules.data,
        (historyStr hist).data, q.data] (synthPrompt q schema hist).data ∧
    (get_sql_from_llm llm q schema hist).2 =
      [.llmCall (synthPrompt q schema hist)] ∧
    ContainsInOrder [webPre.data, schema.data, webRules.data, q.data]
      (webSynthPrompt q schema).data ∧
    (get_sql_from_llm_web llm q schema).2 =
      [.llmCall (webSynthPrompt q schema)] := by
  refine ⟨?_, ?_, ?_, ?_⟩
  · refine ⟨[], (synthSchemaHeader ++ schema ++ synthRules ++ historyStr hist
        ++ synthQuestionHeader ++ q ++ synthTail).data,
      by simp [synthPrompt, String.data_append, List.append_assoc], ?_⟩
    refine ⟨synthSchemaHeader.data, (synthRules ++ historyStr hist
        ++ synthQuestionHeader ++ q ++ synthTail).data,
      by simp [String.data_append, List.append_assoc], ?_⟩
    refine ⟨[], (historyStr hist ++ synthQuestionHeader ++ q ++ synthTail).data,
      by simp [String.data_append, List.append_assoc], ?_⟩
    refine ⟨[], (synthQuestionHeader ++ q ++ synthTail).data,
      by simp [String.data_append, List.append_assoc], ?_⟩
    exact ⟨synthQuestionHeader.data, synthTail.data,
      by simp [String.data_append, List.append_assoc], trivial⟩
  · rcases hg : llm.generate (synthPrompt q schema hist) with e | t <;>
      simp [get_sql_from_llm, hg]
  · refine ⟨[], (schema ++ webRules ++ q ++ webTail).data,
      by simp [webSynthPrompt, String.data_append, List.append_assoc], ?_⟩
    refine ⟨[], (webRules ++ q ++ webTail).data,
      by simp [String.data_append, List.append_assoc], ?_⟩
    refine ⟨[], (q ++ webTail).data,
      by simp [String.data_append, List.append_assoc], ?_⟩
    exact ⟨[], webTail.data,
      by simp [String.data_append, List.append_assoc], trivial⟩
  · rcases hg : llm.generate (webSynthPrompt q schema) with e | t <;>
      simp [get_sql_from_llm_web, hg]

end Chatbot
